import Mathlib

/-!
Verification of the MEV bid-admission validator (`MevAPI.SendBid`,
`MevAPI.ReportIssue`) and of the generated TOML configuration
unmarshaling (`Config.UnmarshalTOML`).

The Go code is shallowly embedded:
* `common.Hash` values are opaque and only compared for equality; they are
  modelled as `Nat` (the zero value `common.Hash` of Go is `0`).
* `*big.Int` fields are modelled as `Option Int` (`none` is the nil
  pointer); `Cmp` against `common.Big0` becomes the order on `Int`.
* `uint64` fields that are only compared against `0`, `+1` and a constant
  bound are modelled as `Nat`.
* `hexutil.Bytes` is modelled as `List Nat`; the code only inspects its
  length.
* the `Backend` interface becomes a structure of values and, for its
  `SendBid` method, a function field, so that forwarding is literal.
* the Go pair `(common.Hash, error)` becomes `Nat × Option MevError`;
  a `nil` error is `none`.
-/

namespace BscMev

/-- `const TransferTxGasLimit = 25000` from the source. -/
def TransferTxGasLimit : Nat := 25000

/-- The part of `types.Header` read by `SendBid`: `Number` and the value of
`Hash()`. -/
structure Header where
  Number : Nat
  Hash : Nat
deriving DecidableEq

/-- The fields of `types.RawBid` read by `SendBid`. -/
structure RawBid where
  BlockNumber : Nat
  ParentHash : Nat
  GasFee : Option Int
  GasUsed : Nat
  BuilderFee : Option Int
deriving DecidableEq

/-- The fields of `types.BidArgs` read by `SendBid`. -/
structure BidArgs where
  RawBid : Option RawBid
  PayBidTx : List Nat
  PayBidTxGasUsed : Nat
deriving DecidableEq

/-- The Go `error` values that can flow out of `MevAPI.SendBid`:
`types.ErrMevNotRunning`, `types.ErrMevNotInTurn`, the errors built by
`types.NewInvalidBidError` and `types.NewInvalidPayBidTxError`, and any
opaque error the Backend returns. -/
inductive MevError where
  | ErrMevNotRunning
  | ErrMevNotInTurn
  | InvalidBidError (msg : String)
  | InvalidPayBidTxError (msg : String)
  | BackendError (msg : String)
deriving DecidableEq

/-- The slice of the `Backend` interface used by `MevAPI.SendBid`:
`MevRunning()`, `MinerInTurn()`, `CurrentHeader()` and the `SendBid`
method, which returns a `(common.Hash, error)` pair. -/
structure Backend where
  MevRunning : Bool
  MinerInTurn : Bool
  CurrentHeader : Header
  SendBid : BidArgs → Nat × Option MevError

/-- `MevAPI` wraps a `Backend`, as in the source. -/
structure MevAPI where
  b : Backend

/-- Shallow embedding of `MevAPI.SendBid` (src/unnamed/part_000, lines
31-99).  The nested Go `if` blocks for a non-nil builder fee are flattened
into an if-chain guarded by the enclosing conditions (`0 < builderFee` for
the two checks inside the `builderFee.Cmp(common.Big0) > 0` block), which
preserves the order and the guards exactly.  `fmt.Sprintf` formatting is
`toString` on the embedded values. -/
def MevAPI.SendBid (m : MevAPI) (args : BidArgs) : Nat × Option MevError :=
  if m.b.MevRunning = false then
    (0, some .ErrMevNotRunning)
  else if m.b.MinerInTurn = false then
    (0, some .ErrMevNotInTurn)
  else
    match args.RawBid with
    | none => (0, some (.InvalidBidError "rawBid should not be nil"))
    | some rawBid =>
      if rawBid.BlockNumber ≠ m.b.CurrentHeader.Number + 1 then
        (0, some (.InvalidBidError "stale block number or block in future"))
      else if rawBid.ParentHash ≠ m.b.CurrentHeader.Hash then
        (0, some (.InvalidBidError
          ("non-aligned parent hash: " ++ toString m.b.CurrentHeader.Hash)))
      else
        match rawBid.GasFee with
        | none => (0, some (.InvalidBidError "empty gasFee or empty gasUsed"))
        | some gasFee =>
          if gasFee = 0 ∨ rawBid.GasUsed = 0 then
            (0, some (.InvalidBidError "empty gasFee or empty gasUsed"))
          else
            match rawBid.BuilderFee with
            | some builderFee =>
              if builderFee < 0 then
                (0, some (.InvalidBidError "builder fee should not be less than 0"))
              else if builderFee = 0 ∧
                  (args.PayBidTx.length ≠ 0 ∨ args.PayBidTxGasUsed ≠ 0) then
                (0, some (.InvalidPayBidTxError
                  "payBidTx should be nil when builder fee is 0"))
              else if gasFee ≤ builderFee then
                (0, some (.InvalidBidError "builder fee must be less than gas fee"))
              else if 0 < builderFee ∧ TransferTxGasLimit < args.PayBidTxGasUsed then
                (0, some (.InvalidBidError
                  ("transfer tx gas used must be no more than " ++
                    toString TransferTxGasLimit)))
              else if 0 < builderFee ∧
                  ((args.PayBidTx.length = 0 ∧ args.PayBidTxGasUsed ≠ 0) ∨
                   (args.PayBidTx.length ≠ 0 ∧ args.PayBidTxGasUsed = 0)) then
                (0, some (.InvalidPayBidTxError "non-aligned payBidTx and payBidTxGasUsed"))
              else
                m.b.SendBid args
            | none =>
              if args.PayBidTx.length ≠ 0 ∨ args.PayBidTxGasUsed ≠ 0 then
                (0, some (.InvalidPayBidTxError
                  "payBidTx should be nil when builder fee is nil"))
              else
                m.b.SendBid args

/-- The fields of `types.BidIssue` read by `ReportIssue`. -/
structure BidIssue where
  BidHash : Nat
  Message : String
deriving DecidableEq

/-- Shallow embedding of `MevAPI.ReportIssue` (src/unnamed/part_000, lines
114-121).  The body only calls `log.Error` — an operation with no effect on
the `MevAPI` value — and returns nil, so the embedding returns the receiver
unchanged together with `none`. -/
def MevAPI.ReportIssue (m : MevAPI) (_args : BidIssue) : MevAPI × Option MevError :=
  (m, none)

/-! ## Shared lemmas: reduction of `SendBid` past the gate, height, parent
hash and fee-presence checks. -/

theorem sendBid_reach_none (m : MevAPI) (args : BidArgs) (rb : RawBid) (gf : Int)
    (h1 : m.b.MevRunning = true) (h2 : m.b.MinerInTurn = true)
    (h3 : args.RawBid = some rb)
    (h4 : rb.BlockNumber = m.b.CurrentHeader.Number + 1)
    (h5 : rb.ParentHash = m.b.CurrentHeader.Hash)
    (h6 : rb.GasFee = some gf) (h7 : gf ≠ 0) (h8 : rb.GasUsed ≠ 0)
    (hbf : rb.BuilderFee = none) :
    MevAPI.SendBid m args =
      if args.PayBidTx.length ≠ 0 ∨ args.PayBidTxGasUsed ≠ 0 then
        (0, some (.InvalidPayBidTxError "payBidTx should be nil when builder fee is nil"))
      else
        m.b.SendBid args := by
  simp [MevAPI.SendBid, h1, h2, h3, h4, h5, h6, h7, h8, hbf]

theorem sendBid_reach_some (m : MevAPI) (args : BidArgs) (rb : RawBid)
    (gf bf : Int)
    (h1 : m.b.MevRunning = true) (h2 : m.b.MinerInTurn = true)
    (h3 : args.RawBid = some rb)
    (h4 : rb.BlockNumber = m.b.CurrentHeader.Number + 1)
    (h5 : rb.ParentHash = m.b.CurrentHeader.Hash)
    (h6 : rb.GasFee = some gf) (h7 : gf ≠ 0) (h8 : rb.GasUsed ≠ 0)
    (hbf : rb.BuilderFee = some bf) :
    MevAPI.SendBid m args =
      if bf < 0 then
        (0, some (.InvalidBidError "builder fee should not be less than 0"))
      else if bf = 0 ∧ (args.PayBidTx.length ≠ 0 ∨ args.PayBidTxGasUsed ≠ 0) then
        (0, some (.InvalidPayBidTxError "payBidTx should be nil when builder fee is 0"))
      else if gf ≤ bf then
        (0, some (.InvalidBidError "builder fee must be less than gas fee"))
      else if 0 < bf ∧ TransferTxGasLimit < args.PayBidTxGasUsed then
        (0, some (.InvalidBidError
          ("transfer tx gas used must be no more than " ++ toString TransferTxGasLimit)))
      else if 0 < bf ∧
          ((args.PayBidTx.length = 0 ∧ args.PayBidTxGasUsed ≠ 0) ∨
           (args.PayBidTx.length ≠ 0 ∧ args.PayBidTxGasUsed = 0)) then
        (0, some (.InvalidPayBidTxError "non-aligned payBidTx and payBidTxGasUsed"))
      else
        m.b.SendBid args := by
  simp [MevAPI.SendBid, h1, h2, h3, h4, h5, h6, h7, h8, hbf]

/-! ## Claims about the gate, height and parent-hash checks -/

/-- Claim C2: for every input, if the Backend reports MEV not running then
`SendBid` returns `ErrMevNotRunning` regardless of the bid content, and if
MEV is running but the node is not in turn then `SendBid` returns
`ErrMevNotInTurn` regardless of the bid content; in both cases the result
is a constant that does not depend on the bid or on the Backend submit
function, so no bid field is examined and the Backend submit is never
used. -/
theorem SendBid_gate_errors (m : MevAPI) (args : BidArgs) :
    (m.b.MevRunning = false →
      MevAPI.SendBid m args = (0, some MevError.ErrMevNotRunning)) ∧
    (m.b.MevRunning = true → m.b.MinerInTurn = false →
      MevAPI.SendBid m args = (0, some MevError.ErrMevNotInTurn)) := by
  constructor
  · intro h
    simp [MevAPI.SendBid, h]
  · intro h1 h2
    simp [MevAPI.SendBid, h1, h2]

theorem SendBid_gate_errors_witness :
    MevAPI.SendBid ⟨⟨false, true, ⟨5, 7⟩, fun _ => (42, none)⟩⟩ ⟨none, [], 0⟩
        = (0, some MevError.ErrMevNotRunning) ∧
    MevAPI.SendBid ⟨⟨true, false, ⟨5, 7⟩, fun _ => (42, none)⟩⟩ ⟨none, [], 0⟩
        = (0, some MevError.ErrMevNotInTurn) :=
  ⟨(SendBid_gate_errors ⟨⟨false, true, ⟨5, 7⟩, fun _ => (42, none)⟩⟩ ⟨none, [], 0⟩).1 rfl,
   (SendBid_gate_errors ⟨⟨true, false, ⟨5, 7⟩, fun _ => (42, none)⟩⟩ ⟨none, [], 0⟩).2 rfl rfl⟩

/-- Claim C3: while MEV is running and the node is in turn, a bid whose
`BlockNumber` is not the current header number plus one is rejected with
the `InvalidBid` error for a stale or future block, and the result is a
constant, independent of the Backend submit function, so the Backend
submit is never used. -/
theorem SendBid_wrong_height (m : MevAPI) (args : BidArgs) (rb : RawBid)
    (h1 : m.b.MevRunning = true) (h2 : m.b.MinerInTurn = true)
    (h3 : args.RawBid = some rb)
    (h4 : rb.BlockNumber ≠ m.b.CurrentHeader.Number + 1) :
    MevAPI.SendBid m args =
      (0, some (MevError.InvalidBidError "stale block number or block in future")) := by
  simp [MevAPI.SendBid, h1, h2, h3, h4]

theorem SendBid_wrong_height_witness :
    MevAPI.SendBid ⟨⟨true, true, ⟨5, 7⟩, fun _ => (42, none)⟩⟩
        ⟨some ⟨9, 7, some 100, 21000, none⟩, [], 0⟩
      = (0, some (MevError.InvalidBidError "stale block number or block in future")) :=
  SendBid_wrong_height ⟨⟨true, true, ⟨5, 7⟩, fun _ => (42, none)⟩⟩
    ⟨some ⟨9, 7, some 100, 21000, none⟩, [], 0⟩ ⟨9, 7, some 100, 21000, none⟩
    rfl rfl rfl (by decide)

/-- Claim C4: with MEV running, the node in turn, a non-nil raw bid and the
correct block number, a mismatched parent hash is rejected with the
parent-hash `InvalidBid` error, for every value of the fee fields
(`GasFee`, `GasUsed`, `BuilderFee`, `PayBidTx`, `PayBidTxGasUsed` are
universally quantified and the result does not depend on them), so the
rejection happens before any fee check. -/
theorem SendBid_parent_hash_mismatch (m : MevAPI) (args : BidArgs) (rb : RawBid)
    (h1 : m.b.MevRunning = true) (h2 : m.b.MinerInTurn = true)
    (h3 : args.RawBid = some rb)
    (h4 : rb.BlockNumber = m.b.CurrentHeader.Number + 1)
    (h5 : rb.ParentHash ≠ m.b.CurrentHeader.Hash) :
    MevAPI.SendBid m args =
      (0, some (MevError.InvalidBidError
        ("non-aligned parent hash: " ++ toString m.b.CurrentHeader.Hash))) := by
  simp [MevAPI.SendBid, h1, h2, h3, h4, h5]

theorem SendBid_parent_hash_mismatch_witness :
    MevAPI.SendBid ⟨⟨true, true, ⟨5, 7⟩, fun _ => (42, none)⟩⟩
        ⟨some ⟨6, 9, none, 0, some 1000000⟩, [1, 2], 999999⟩
      = (0, some (MevError.InvalidBidError "non-aligned parent hash: 7")) :=
  SendBid_parent_hash_mismatch ⟨⟨true, true, ⟨5, 7⟩, fun _ => (42, none)⟩⟩
    ⟨some ⟨6, 9, none, 0, some 1000000⟩, [1, 2], 999999⟩ ⟨6, 9, none, 0, some 1000000⟩
    rfl rfl rfl rfl (by decide)

/-! ## Claims about the fee checks and forwarding -/

/-- Claim C1: every bid that passes all admission checks (MEV running,
node in turn, non-nil raw bid, block number equal to the current height
plus one, parent hash equal to the current header hash, non-nil non-zero
gas fee, non-zero gas used, and the builder-fee and pay-bid-tx coupling
rules) is forwarded with the argument value unchanged to the Backend
`SendBid`, and the call returns exactly the `(hash, error)` pair the
Backend produces, any Backend error included. -/
theorem SendBid_forwards_valid_bid (m : MevAPI) (args : BidArgs) (rb : RawBid)
    (gf : Int)
    (h1 : m.b.MevRunning = true) (h2 : m.b.MinerInTurn = true)
    (h3 : args.RawBid = some rb)
    (h4 : rb.BlockNumber = m.b.CurrentHeader.Number + 1)
    (h5 : rb.ParentHash = m.b.CurrentHeader.Hash)
    (h6 : rb.GasFee = some gf) (h7 : gf ≠ 0) (h8 : rb.GasUsed ≠ 0)
    (h9 : match rb.BuilderFee with
          | none => args.PayBidTx = [] ∧ args.PayBidTxGasUsed = 0
          | some bf => 0 ≤ bf ∧
              (bf = 0 → args.PayBidTx = [] ∧ args.PayBidTxGasUsed = 0) ∧
              bf < gf ∧
              (0 < bf → args.PayBidTxGasUsed ≤ TransferTxGasLimit ∧
                (args.PayBidTx = [] ↔ args.PayBidTxGasUsed = 0))) :
    MevAPI.SendBid m args = m.b.SendBid args := by
  cases hbf : rb.BuilderFee with
  | none =>
    rw [hbf] at h9
    obtain ⟨htx, hg⟩ := h9
    rw [sendBid_reach_none m args rb gf h1 h2 h3 h4 h5 h6 h7 h8 hbf]
    simp [htx, hg]
  | some bf =>
    rw [hbf] at h9
    obtain ⟨hnn, hzero, hlt, hpos⟩ := h9
    rw [sendBid_reach_some m args rb gf bf h1 h2 h3 h4 h5 h6 h7 h8 hbf]
    rw [if_neg (by omega)]
    rw [if_neg ?hc2]
    case hc2 =>
      rintro ⟨hbf0, hor⟩
      obtain ⟨htx, hg⟩ := hzero hbf0
      rcases hor with hlen | hgne
      · exact hlen (by simp [htx])
      · exact hgne hg
    rw [if_neg (by omega)]
    rw [if_neg ?hc4]
    case hc4 =>
      rintro ⟨hp, hover⟩
      exact absurd (hpos hp).1 (by omega)
    rw [if_neg ?hc5]
    case hc5 =>
      rintro ⟨hp, hmis⟩
      have hiff := (hpos hp).2
      rcases hmis with ⟨hlen0, hgne⟩ | ⟨hlenne, hg0⟩
      · exact hgne (hiff.mp (List.length_eq_zero.mp hlen0))
      · exact hlenne (by simp [hiff.mpr hg0])

theorem SendBid_forwards_valid_bid_witness :
    MevAPI.SendBid ⟨⟨true, true, ⟨5, 7⟩, fun _ => (42, none)⟩⟩
        ⟨some ⟨6, 7, some 100, 21000, none⟩, [], 0⟩ = (42, none) :=
  SendBid_forwards_valid_bid ⟨⟨true, true, ⟨5, 7⟩, fun _ => (42, none)⟩⟩
    ⟨some ⟨6, 7, some 100, 21000, none⟩, [], 0⟩ ⟨6, 7, some 100, 21000, none⟩ 100
    rfl rfl rfl rfl rfl rfl (by decide) (by decide) ⟨rfl, rfl⟩

/-- Counterexample to claim C5 as stated: a bid with a strictly negative
gas fee (`GasFee = some (-1)`) and no builder fee passes every check and is
forwarded to the Backend, whose `(42, nil)` answer is returned; the claim
instead demands an `InvalidBid` error and no Backend call.  The code only
compares the gas fee against zero with `Cmp(common.Big0) == 0`, so a
negative gas fee is not caught. -/
theorem SendBid_negative_gasFee_forwarded :
    MevAPI.SendBid ⟨⟨true, true, ⟨5, 7⟩, fun _ => (42, none)⟩⟩
        ⟨some ⟨6, 7, some (-1), 21000, none⟩, [], 0⟩ = (42, none) := by
  decide

/-- Claim C5, amended: for every bid reaching the fee checks (MEV running,
in turn, non-nil raw bid, correct block number and parent hash), `SendBid`
returns the `InvalidBid` error for an empty fee whenever `GasFee` is nil,
`GasFee` is exactly zero, or `GasUsed` is zero; a present but negative
`GasFee` is not rejected by this check.  The result is a constant,
independent of the Backend submit function, so the Backend submit is never
used for such bids. -/
theorem SendBid_empty_fee_rejected (m : MevAPI) (args : BidArgs) (rb : RawBid)
    (h1 : m.b.MevRunning = true) (h2 : m.b.MinerInTurn = true)
    (h3 : args.RawBid = some rb)
    (h4 : rb.BlockNumber = m.b.CurrentHeader.Number + 1)
    (h5 : rb.ParentHash = m.b.CurrentHeader.Hash)
    (h6 : rb.GasFee = none ∨ rb.GasFee = some 0 ∨ rb.GasUsed = 0) :
    MevAPI.SendBid m args =
      (0, some (MevError.InvalidBidError "empty gasFee or empty gasUsed")) := by
  rcases h6 with h6 | h6 | h6
  · simp [MevAPI.SendBid, h1, h2, h3, h4, h5, h6]
  · simp [MevAPI.SendBid, h1, h2, h3, h4, h5, h6]
  · cases hgf : rb.GasFee with
    | none => simp [MevAPI.SendBid, h1, h2, h3, h4, h5, hgf]
    | some gf => simp [MevAPI.SendBid, h1, h2, h3, h4, h5, hgf, h6]

theorem SendBid_empty_fee_rejected_witness :
    MevAPI.SendBid ⟨⟨true, true, ⟨5, 7⟩, fun _ => (42, none)⟩⟩
        ⟨some ⟨6, 7, some 0, 21000, none⟩, [], 0⟩
      = (0, some (MevError.InvalidBidError "empty gasFee or empty gasUsed")) :=
  SendBid_empty_fee_rejected ⟨⟨true, true, ⟨5, 7⟩, fun _ => (42, none)⟩⟩
    ⟨some ⟨6, 7, some 0, 21000, none⟩, [], 0⟩ ⟨6, 7, some 0, 21000, none⟩
    rfl rfl rfl rfl rfl (Or.inr (Or.inl rfl))

/-- Counterexample to claim C6 as stated: at the concrete input with
`GasFee = some (-1)`, `BuilderFee = some 0` and a non-empty `PayBidTx`,
the builder fee (0) is greater than or equal to the gas fee (-1), yet the
result is the `InvalidPayBidTx` zero-builder-fee coupling error, not an
`InvalidBid` error: the zero-builder-fee coupling check runs before the
builder-fee-versus-gas-fee comparison. -/
theorem SendBid_builderFee_ge_gasFee_counterexample :
    ((-1 : Int) ≤ 0 ∧
      MevAPI.SendBid ⟨⟨true, true, ⟨5, 7⟩, fun _ => (42, none)⟩⟩
          ⟨some ⟨6, 7, some (-1), 21000, some 0⟩, [1], 0⟩
        = (0, some (MevError.InvalidPayBidTxError
            "payBidTx should be nil when builder fee is 0"))) ∧
    ∀ s, MevError.InvalidPayBidTxError "payBidTx should be nil when builder fee is 0"
        ≠ MevError.InvalidBidError s :=
  ⟨⟨by decide, by decide⟩, fun s h => MevError.noConfusion h⟩

/-- Claim C6, amended: for every bid reaching the builder-fee checks with
`BuilderFee` present and `BuilderFee ≥ GasFee`, `SendBid` returns an
`InvalidBid` error regardless of the remaining fields, except in the one
case where `BuilderFee` is exactly zero while `PayBidTx` is non-empty or
`PayBidTxGasUsed` is non-zero (possible here only with a negative gas
fee), in which case the `InvalidPayBidTx` coupling error is returned
first. -/
theorem SendBid_builderFee_ge_gasFee_rejected (m : MevAPI) (args : BidArgs)
    (rb : RawBid) (gf bf : Int)
    (h1 : m.b.MevRunning = true) (h2 : m.b.MinerInTurn = true)
    (h3 : args.RawBid = some rb)
    (h4 : rb.BlockNumber = m.b.CurrentHeader.Number + 1)
    (h5 : rb.ParentHash = m.b.CurrentHeader.Hash)
    (h6 : rb.GasFee = some gf) (h7 : gf ≠ 0) (h8 : rb.GasUsed ≠ 0)
    (hbf : rb.BuilderFee = some bf) (hge : gf ≤ bf)
    (hexcl : ¬(bf = 0 ∧ (args.PayBidTx ≠ [] ∨ args.PayBidTxGasUsed ≠ 0))) :
    ∃ s, (MevAPI.SendBid m args).2 = some (MevError.InvalidBidError s) := by
  rw [sendBid_reach_some m args rb gf bf h1 h2 h3 h4 h5 h6 h7 h8 hbf]
  by_cases hneg : bf < 0
  · exact ⟨_, by rw [if_pos hneg]⟩
  rw [if_neg hneg]
  rw [if_neg ?hc2]
  case hc2 =>
    rintro ⟨hbf0, hor⟩
    refine hexcl ⟨hbf0, ?_⟩
    rcases hor with hlen | hg
    · exact Or.inl (by simpa using hlen)
    · exact Or.inr hg
  exact ⟨_, by rw [if_pos hge]⟩

theorem SendBid_builderFee_ge_gasFee_rejected_witness :
    ∃ s, (MevAPI.SendBid ⟨⟨true, true, ⟨5, 7⟩, fun _ => (42, none)⟩⟩
        ⟨some ⟨6, 7, some 100, 21000, some 100⟩, [], 0⟩).2
      = some (MevError.InvalidBidError s) :=
  SendBid_builderFee_ge_gasFee_rejected
    ⟨⟨true, true, ⟨5, 7⟩, fun _ => (42, none)⟩⟩
    ⟨some ⟨6, 7, some 100, 21000, some 100⟩, [], 0⟩
    ⟨6, 7, some 100, 21000, some 100⟩ 100 100
    rfl rfl rfl rfl rfl rfl (by decide) (by decide) rfl (by decide)
    (by rintro ⟨-, h | h⟩ <;> exact h rfl)

/-- Claim C8: for every bid reaching the builder-fee checks with a
strictly positive `BuilderFee` below `GasFee`, a `PayBidTxGasUsed` above
the fixed ceiling `TransferTxGasLimit = 25000` yields the ceiling
`InvalidBid` error (not `InvalidPayBidTx`), for every value of `PayBidTx`
and `PayBidTxGasUsed` above the ceiling — in particular also when the
presence-alignment of `PayBidTx` and `PayBidTxGasUsed` is violated, which
shows the ceiling check runs before the alignment check. -/
theorem SendBid_ceiling_rejected (m : MevAPI) (args : BidArgs) (rb : RawBid)
    (gf bf : Int)
    (h1 : m.b.MevRunning = true) (h2 : m.b.MinerInTurn = true)
    (h3 : args.RawBid = some rb)
    (h4 : rb.BlockNumber = m.b.CurrentHeader.Number + 1)
    (h5 : rb.ParentHash = m.b.CurrentHeader.Hash)
    (h6 : rb.GasFee = some gf) (h7 : gf ≠ 0) (h8 : rb.GasUsed ≠ 0)
    (hbf : rb.BuilderFee = some bf) (hpos : 0 < bf) (hlt : bf < gf)
    (hg : TransferTxGasLimit < args.PayBidTxGasUsed) :
    MevAPI.SendBid m args =
      (0, some (MevError.InvalidBidError
        ("transfer tx gas used must be no more than " ++ toString TransferTxGasLimit))) := by
  rw [sendBid_reach_some m args rb gf bf h1 h2 h3 h4 h5 h6 h7 h8 hbf]
  rw [if_neg (by omega), if_neg (by rintro ⟨hbf0, -⟩; omega),
      if_neg (by omega), if_pos ⟨hpos, hg⟩]

theorem SendBid_ceiling_rejected_witness :
    MevAPI.SendBid ⟨⟨true, true, ⟨5, 7⟩, fun _ => (42, none)⟩⟩
        ⟨some ⟨6, 7, some 100, 21000, some 10⟩, [1], 30000⟩
      = (0, some (MevError.InvalidBidError
          "transfer tx gas used must be no more than 25000")) :=
  SendBid_ceiling_rejected ⟨⟨true, true, ⟨5, 7⟩, fun _ => (42, none)⟩⟩
    ⟨some ⟨6, 7, some 100, 21000, some 10⟩, [1], 30000⟩
    ⟨6, 7, some 100, 21000, some 10⟩ 100 10
    rfl rfl rfl rfl rfl rfl (by decide) (by decide) rfl (by decide) (by decide)
    (by decide)

/-- Counterexample to claim C7 as stated: at the concrete input with
`GasFee = some 100`, `BuilderFee = some 100`, non-empty `PayBidTx` and
`PayBidTxGasUsed = 0`, clause (ii) of the claim holds (builder fee
strictly positive, gas used below the ceiling, exactly one of the
pay-bid-tx indicators present), so the claim demands `InvalidPayBidTx`;
the code instead returns the `InvalidBid` error for a builder fee not
below the gas fee, because the builder-fee-versus-gas-fee comparison runs
before the presence-alignment check and the claim omits the
`BuilderFee < GasFee` condition. -/
theorem SendBid_invalidPayBidTx_iff_counterexample :
    (MevAPI.SendBid ⟨⟨true, true, ⟨5, 7⟩, fun _ => (42, none)⟩⟩
        ⟨some ⟨6, 7, some 100, 21000, some 100⟩, [1], 0⟩
      = (0, some (MevError.InvalidBidError "builder fee must be less than gas fee"))) ∧
    ∀ s, MevError.InvalidBidError "builder fee must be less than gas fee"
        ≠ MevError.InvalidPayBidTxError s :=
  ⟨by decide, fun s h => MevError.noConfusion h⟩

/-- Claim C7, amended: for every bid that has passed the gate, height,
parent-hash and fee-presence checks, and whose Backend answer is not
itself an `InvalidPayBidTx` error, `SendBid` returns an `InvalidPayBidTx`
error exactly when (i) `BuilderFee` is absent or exactly zero while
`PayBidTx` is non-empty or `PayBidTxGasUsed` is non-zero, or (ii)
`BuilderFee` is strictly positive, `BuilderFee` is strictly less than the
gas fee, `PayBidTxGasUsed` does not exceed the ceiling, and exactly one of
`PayBidTx`-non-empty and `PayBidTxGasUsed`-non-zero holds. -/
theorem SendBid_invalidPayBidTx_iff (m : MevAPI) (args : BidArgs) (rb : RawBid)
    (gf : Int)
    (h1 : m.b.MevRunning = true) (h2 : m.b.MinerInTurn = true)
    (h3 : args.RawBid = some rb)
    (h4 : rb.BlockNumber = m.b.CurrentHeader.Number + 1)
    (h5 : rb.ParentHash = m.b.CurrentHeader.Hash)
    (h6 : rb.GasFee = some gf) (h7 : gf ≠ 0) (h8 : rb.GasUsed ≠ 0)
    (hback : ∀ s, (m.b.SendBid args).2 ≠ some (MevError.InvalidPayBidTxError s)) :
    (∃ s, (MevAPI.SendBid m args).2 = some (MevError.InvalidPayBidTxError s)) ↔
      (((rb.BuilderFee = none ∨ rb.BuilderFee = some 0) ∧
          (args.PayBidTx ≠ [] ∨ args.PayBidTxGasUsed ≠ 0)) ∨
        (∃ bf, rb.BuilderFee = some bf ∧ 0 < bf ∧ bf < gf ∧
          args.PayBidTxGasUsed ≤ TransferTxGasLimit ∧
          ((args.PayBidTx ≠ [] ∧ args.PayBidTxGasUsed = 0) ∨
           (args.PayBidTx = [] ∧ args.PayBidTxGasUsed ≠ 0)))) := by
  have hlen : args.PayBidTx.length = 0 ↔ args.PayBidTx = [] := List.length_eq_zero
  cases hbf : rb.BuilderFee with
  | none =>
    rw [sendBid_reach_none m args rb gf h1 h2 h3 h4 h5 h6 h7 h8 hbf]
    by_cases hc : args.PayBidTx.length ≠ 0 ∨ args.PayBidTxGasUsed ≠ 0
    · rw [if_pos hc]
      constructor
      · intro _
        refine Or.inl ⟨Or.inl rfl, ?_⟩
        rcases hc with h | h
        · exact Or.inl fun he => h (hlen.mpr he)
        · exact Or.inr h
      · intro _
        exact ⟨_, rfl⟩
    · rw [if_neg hc]
      push_neg at hc
      constructor
      · rintro ⟨s, hs⟩
        exact absurd hs (hback s)
      · rintro (⟨-, htx | hg⟩ | ⟨bf, hbf2, -⟩)
        · exact absurd (hlen.mp hc.1) htx
        · exact absurd hc.2 hg
        · exact Option.noConfusion hbf2
  | some bf =>
    rw [sendBid_reach_some m args rb gf bf h1 h2 h3 h4 h5 h6 h7 h8 hbf]
    simp only [Option.some.injEq, exists_eq_left']
    have hnone : (some bf = none) = False := by simp
    rw [hnone, false_or]
    split_ifs with hc1 hc2 hc3 hc4 hc5
    · constructor
      · rintro ⟨s, hs⟩
        simp at hs
      · rintro (⟨hbf0, -⟩ | ⟨hp, -⟩) <;> omega
    · constructor
      · intro _
        refine Or.inl ⟨hc2.1, ?_⟩
        rcases hc2.2 with h | h
        · exact Or.inl fun he => h (hlen.mpr he)
        · exact Or.inr h
      · intro _
        exact ⟨_, rfl⟩
    · constructor
      · rintro ⟨s, hs⟩
        simp at hs
      · rintro (⟨hbf0, hor⟩ | ⟨-, hlt2, -⟩)
        · refine absurd (a := bf = 0 ∧ (args.PayBidTx.length ≠ 0 ∨ args.PayBidTxGasUsed ≠ 0)) ⟨hbf0, ?_⟩ hc2
          rcases hor with h | h
          · exact Or.inl fun he => h (hlen.mp he)
          · exact Or.inr h
        · omega
    · constructor
      · rintro ⟨s, hs⟩
        simp at hs
      · rintro (⟨hbf0, -⟩ | ⟨-, -, hle, -⟩) <;> omega
    · constructor
      · intro _
        refine Or.inr ⟨hc5.1, by omega, by omega, ?_⟩
        rcases hc5.2 with ⟨hl0, hg⟩ | ⟨hlne, hg0⟩
        · exact Or.inr ⟨hlen.mp hl0, hg⟩
        · exact Or.inl ⟨fun he => hlne (hlen.mpr he), hg0⟩
      · intro _
        exact ⟨_, rfl⟩
    · constructor
      · rintro ⟨s, hs⟩
        exact absurd hs (hback s)
      · rintro (⟨hbf0, hor⟩ | ⟨hp, hlt2, hle, hq⟩)
        · refine absurd (a := bf = 0 ∧ (args.PayBidTx.length ≠ 0 ∨ args.PayBidTxGasUsed ≠ 0)) ⟨hbf0, ?_⟩ hc2
          rcases hor with h | h
          · exact Or.inl fun he => h (hlen.mp he)
          · exact Or.inr h
        · refine absurd (a := 0 < bf ∧ ((args.PayBidTx.length = 0 ∧ args.PayBidTxGasUsed ≠ 0) ∨ (args.PayBidTx.length ≠ 0 ∧ args.PayBidTxGasUsed = 0))) ⟨hp, ?_⟩ hc5
          rcases hq with ⟨htxne, hg0⟩ | ⟨htx0, hgne⟩
          · exact Or.inr ⟨fun he => htxne (hlen.mp he), hg0⟩
          · exact Or.inl ⟨hlen.mpr htx0, hgne⟩

theorem SendBid_invalidPayBidTx_iff_witness :
    ∃ s, (MevAPI.SendBid ⟨⟨true, true, ⟨5, 7⟩, fun _ => (42, none)⟩⟩
        ⟨some ⟨6, 7, some 100, 21000, some 10⟩, [], 5000⟩).2
      = some (MevError.InvalidPayBidTxError s) :=
  (SendBid_invalidPayBidTx_iff ⟨⟨true, true, ⟨5, 7⟩, fun _ => (42, none)⟩⟩
      ⟨some ⟨6, 7, some 100, 21000, some 10⟩, [], 5000⟩
      ⟨6, 7, some 100, 21000, some 10⟩ 100
      rfl rfl rfl rfl rfl rfl (by decide) (by decide)
      (fun s h => Option.noConfusion h)).mpr
    (Or.inr ⟨10, rfl, by decide, by decide, by decide,
      Or.inr ⟨rfl, by decide⟩⟩)

/-! ## Claim about issue reporting -/

/-- Claim C9: `ReportIssue` always returns a nil error and leaves the
`MevAPI` value unchanged: the body only logs the report and performs no
corrective action and no state mutation. -/
theorem ReportIssue_noop (m : MevAPI) (args : BidIssue) :
    MevAPI.ReportIssue m args = (m, none) := rfl

end BscMev
namespace BscCfg

/-!
Embedding of `Config.UnmarshalTOML` (src/eth/ethconfig/gen_config.go,
lines 138-370).  Field types that the function never inspects are opaque
and modelled as follows: pointer-to-struct and enum-like types by `Nat`,
`time.Duration` by `Int`, `float64` by its bit pattern (a `Nat`, copied
verbatim and never computed with), slices and the `RequiredBlocks` map by
lists.  The `unmarshal` callback of the Go function is modelled by its
outcome, an `Except String ConfigTOML` value: `error` is a failing decode
and `ok` carries the decoded optional-field wire structure.  A present
(non-nil) wire field overwrites the target field; an absent (`none`) one
leaves it unchanged, exactly mirroring the generated sequence of
`if dec.F != nil` assignments.
-/

abbrev Genesis := Nat
abbrev SyncMode := Nat
abbrev VerifyMode := Nat
abbrev Duration := Int
abbrev MinerConfig := Nat
abbrev LegacypoolConfig := Nat
abbrev BlobpoolConfig := Nat
abbrev GaspriceConfig := Nat
abbrev Float64Bits := Nat
abbrev RequiredBlocksMap := List (Nat × Nat)

/-- The target `ethconfig.Config` structure, with the fields of the
generated TOML mapping. -/
structure Config where
  Genesis : Option Genesis
  NetworkId : Nat
  SyncMode : SyncMode
  DisablePeerTxBroadcast : Bool
  EthDiscoveryURLs : List String
  SnapDiscoveryURLs : List String
  TrustDiscoveryURLs : List String
  BscDiscoveryURLs : List String
  NoPruning : Bool
  NoPrefetch : Bool
  DirectBroadcast : Bool
  DisableSnapProtocol : Bool
  EnableTrustProtocol : Bool
  PipeCommit : Bool
  RangeLimit : Bool
  TxLookupLimit : Nat
  TransactionHistory : Nat
  StateHistory : Nat
  StateScheme : String
  PathSyncFlush : Bool
  JournalFileEnabled : Bool
  RequiredBlocks : RequiredBlocksMap
  LightServ : Int
  LightIngress : Int
  LightEgress : Int
  LightPeers : Int
  LightNoPrune : Bool
  LightNoSyncServe : Bool
  SkipBcVersionCheck : Bool
  DatabaseHandles : Int
  DatabaseCache : Int
  DatabaseFreezer : String
  DatabaseDiff : String
  PersistDiff : Bool
  DiffBlock : Nat
  PruneAncientData : Bool
  TrieCleanCache : Int
  TrieDirtyCache : Int
  TrieTimeout : Duration
  SnapshotCache : Int
  TriesInMemory : Nat
  TriesVerifyMode : VerifyMode
  Preimages : Bool
  FilterLogCacheSize : Int
  Miner : MinerConfig
  TxPool : LegacypoolConfig
  BlobPool : BlobpoolConfig
  GPO : GaspriceConfig
  EnablePreimageRecording : Bool
  DocRoot : String
  RPCGasCap : Nat
  RPCEVMTimeout : Duration
  RPCTxFeeCap : Float64Bits
  OverrideCancun : Option Nat
  OverrideVerkle : Option Nat
  BlobExtraReserve : Nat

/-- The decode-side structure of `UnmarshalTOML`: every field optional
(`none` is a nil pointer or nil slice/map in the generated Go). -/
structure ConfigTOML where
  Genesis : Option Genesis
  NetworkId : Option Nat
  SyncMode : Option SyncMode
  DisablePeerTxBroadcast : Option Bool
  EthDiscoveryURLs : Option (List String)
  SnapDiscoveryURLs : Option (List String)
  TrustDiscoveryURLs : Option (List String)
  BscDiscoveryURLs : Option (List String)
  NoPruning : Option Bool
  NoPrefetch : Option Bool
  DirectBroadcast : Option Bool
  DisableSnapProtocol : Option Bool
  EnableTrustProtocol : Option Bool
  PipeCommit : Option Bool
  RangeLimit : Option Bool
  TxLookupLimit : Option Nat
  TransactionHistory : Option Nat
  StateHistory : Option Nat
  StateScheme : Option String
  PathSyncFlush : Option Bool
  JournalFileEnabled : Option Bool
  RequiredBlocks : Option RequiredBlocksMap
  LightServ : Option Int
  LightIngress : Option Int
  LightEgress : Option Int
  LightPeers : Option Int
  LightNoPrune : Option Bool
  LightNoSyncServe : Option Bool
  SkipBcVersionCheck : Option Bool
  DatabaseHandles : Option Int
  DatabaseCache : Option Int
  DatabaseFreezer : Option String
  DatabaseDiff : Option String
  PersistDiff : Option Bool
  DiffBlock : Option Nat
  PruneAncientData : Option Bool
  TrieCleanCache : Option Int
  TrieDirtyCache : Option Int
  TrieTimeout : Option Duration
  SnapshotCache : Option Int
  TriesInMemory : Option Nat
  TriesVerifyMode : Option VerifyMode
  Preimages : Option Bool
  FilterLogCacheSize : Option Int
  Miner : Option MinerConfig
  TxPool : Option LegacypoolConfig
  BlobPool : Option BlobpoolConfig
  GPO : Option GaspriceConfig
  EnablePreimageRecording : Option Bool
  DocRoot : Option String
  RPCGasCap : Option Nat
  RPCEVMTimeout : Option Duration
  RPCTxFeeCap : Option Float64Bits
  OverrideCancun : Option Nat
  OverrideVerkle : Option Nat
  BlobExtraReserve : Option Nat

/-- Shallow embedding of `Config.UnmarshalTOML`.  On a decode error the
config is returned unchanged with the error; on success each present wire
field overwrites the corresponding target field (for value fields the
dereferenced value, for pointer fields the pointer itself) and each absent
wire field leaves the target field unchanged, in the order of the
source. -/
def Config.UnmarshalTOML (c : Config) (unmarshal : Except String ConfigTOML) :
    Config × Option String :=
  match unmarshal with
  | Except.error err => (c, some err)
  | Except.ok dec =>
    ({
      Genesis := match dec.Genesis with | some v => some v | none => c.Genesis,
      NetworkId := match dec.NetworkId with | some v => v | none => c.NetworkId,
      SyncMode := match dec.SyncMode with | some v => v | none => c.SyncMode,
      DisablePeerTxBroadcast := match dec.DisablePeerTxBroadcast with | some v => v | none => c.DisablePeerTxBroadcast,
      EthDiscoveryURLs := match dec.EthDiscoveryURLs with | some v => v | none => c.EthDiscoveryURLs,
      SnapDiscoveryURLs := match dec.SnapDiscoveryURLs with | some v => v | none => c.SnapDiscoveryURLs,
      TrustDiscoveryURLs := match dec.TrustDiscoveryURLs with | some v => v | none => c.TrustDiscoveryURLs,
      BscDiscoveryURLs := match dec.BscDiscoveryURLs with | some v => v | none => c.BscDiscoveryURLs,
      NoPruning := match dec.NoPruning with | some v => v | none => c.NoPruning,
      NoPrefetch := match dec.NoPrefetch with | some v => v | none => c.NoPrefetch,
      DirectBroadcast := match dec.DirectBroadcast with | some v => v | none => c.DirectBroadcast,
      DisableSnapProtocol := match dec.DisableSnapProtocol with | some v => v | none => c.DisableSnapProtocol,
      EnableTrustProtocol := match dec.EnableTrustProtocol with | some v => v | none => c.EnableTrustProtocol,
      PipeCommit := match dec.PipeCommit with | some v => v | none => c.PipeCommit,
      RangeLimit := match dec.RangeLimit with | some v => v | none => c.RangeLimit,
      TxLookupLimit := match dec.TxLookupLimit with | some v => v | none => c.TxLookupLimit,
      TransactionHistory := match dec.TransactionHistory with | some v => v | none => c.TransactionHistory,
      StateHistory := match dec.StateHistory with | some v => v | none => c.StateHistory,
      StateScheme := match dec.StateScheme with | some v => v | none => c.StateScheme,
      PathSyncFlush := match dec.PathSyncFlush with | some v => v | none => c.PathSyncFlush,
      JournalFileEnabled := match dec.JournalFileEnabled with | some v => v | none => c.JournalFileEnabled,
      RequiredBlocks := match dec.RequiredBlocks with | some v => v | none => c.RequiredBlocks,
      LightServ := match dec.LightServ with | some v => v | none => c.LightServ,
      LightIngress := match dec.LightIngress with | some v => v | none => c.LightIngress,
      LightEgress := match dec.LightEgress with | some v => v | none => c.LightEgress,
      LightPeers := match dec.LightPeers with | some v => v | none => c.LightPeers,
      LightNoPrune := match dec.LightNoPrune with | some v => v | none => c.LightNoPrune,
      LightNoSyncServe := match dec.LightNoSyncServe with | some v => v | none => c.LightNoSyncServe,
      SkipBcVersionCheck := match dec.SkipBcVersionCheck with | some v => v | none => c.SkipBcVersionCheck,
      DatabaseHandles := match dec.DatabaseHandles with | some v => v | none => c.DatabaseHandles,
      DatabaseCache := match dec.DatabaseCache with | some v => v | none => c.DatabaseCache,
      DatabaseFreezer := match dec.DatabaseFreezer with | some v => v | none => c.DatabaseFreezer,
      DatabaseDiff := match dec.DatabaseDiff with | some v => v | none => c.DatabaseDiff,
      PersistDiff := match dec.PersistDiff with | some v => v | none => c.PersistDiff,
      DiffBlock := match dec.DiffBlock with | some v => v | none => c.DiffBlock,
      PruneAncientData := match dec.PruneAncientData with | some v => v | none => c.PruneAncientData,
      TrieCleanCache := match dec.TrieCleanCache with | some v => v | none => c.TrieCleanCache,
      TrieDirtyCache := match dec.TrieDirtyCache with | some v => v | none => c.TrieDirtyCache,
      TrieTimeout := match dec.TrieTimeout with | some v => v | none => c.TrieTimeout,
      SnapshotCache := match dec.SnapshotCache with | some v => v | none => c.SnapshotCache,
      TriesInMemory := match dec.TriesInMemory with | some v => v | none => c.TriesInMemory,
      TriesVerifyMode := match dec.TriesVerifyMode with | some v => v | none => c.TriesVerifyMode,
      Preimages := match dec.Preimages with | some v => v | none => c.Preimages,
      FilterLogCacheSize := match dec.FilterLogCacheSize with | some v => v | none => c.FilterLogCacheSize,
      Miner := match dec.Miner with | some v => v | none => c.Miner,
      TxPool := match dec.TxPool with | some v => v | none => c.TxPool,
      BlobPool := match dec.BlobPool with | some v => v | none => c.BlobPool,
      GPO := match dec.GPO with | some v => v | none => c.GPO,
      EnablePreimageRecording := match dec.EnablePreimageRecording with | some v => v | none => c.EnablePreimageRecording,
      DocRoot := match dec.DocRoot with | some v => v | none => c.DocRoot,
      RPCGasCap := match dec.RPCGasCap with | some v => v | none => c.RPCGasCap,
      RPCEVMTimeout := match dec.RPCEVMTimeout with | some v => v | none => c.RPCEVMTimeout,
      RPCTxFeeCap := match dec.RPCTxFeeCap with | some v => v | none => c.RPCTxFeeCap,
      OverrideCancun := match dec.OverrideCancun with | some v => some v | none => c.OverrideCancun,
      OverrideVerkle := match dec.OverrideVerkle with | some v => some v | none => c.OverrideVerkle,
      BlobExtraReserve := match dec.BlobExtraReserve with | some v => v | none => c.BlobExtraReserve
     }, none)

/-- Claim C10: for every starting `Config` and decode outcome,
`UnmarshalTOML` sets exactly the fields whose wire field is present (a
present field overwrites the matching target field with the decoded
value, stated as `Option.getD` for dereferenced fields and as an
`isSome` conditional for pointer-copied fields) and leaves every field
whose wire field is absent unchanged; on a decode error the `Config` is
returned entirely unchanged together with the error, and on success no
error is reported. -/
theorem UnmarshalTOML_frame :
    (∀ (c : Config) (e : String),
        Config.UnmarshalTOML c (Except.error e) = (c, some e)) ∧
    ∀ (c : Config) (d : ConfigTOML),
      (Config.UnmarshalTOML c (Except.ok d)).2 = none
      ∧ (Config.UnmarshalTOML c (Except.ok d)).1.Genesis =
          (if (d.Genesis).isSome then d.Genesis else c.Genesis)
      ∧ (Config.UnmarshalTOML c (Except.ok d)).1.NetworkId = (d.NetworkId).getD c.NetworkId
      ∧ (Config.UnmarshalTOML c (Except.ok d)).1.SyncMode = (d.SyncMode).getD c.SyncMode
      ∧ (Config.UnmarshalTOML c (Except.ok d)).1.DisablePeerTxBroadcast = (d.DisablePeerTxBroadcast).getD c.DisablePeerTxBroadcast
      ∧ (Config.UnmarshalTOML c (Except.ok d)).1.EthDiscoveryURLs = (d.EthDiscoveryURLs).getD c.EthDiscoveryURLs
      ∧ (Config.UnmarshalTOML c (Except.ok d)).1.SnapDiscoveryURLs = (d.SnapDiscoveryURLs).getD c.SnapDiscoveryURLs
      ∧ (Config.UnmarshalTOML c (Except.ok d)).1.TrustDiscoveryURLs = (d.TrustDiscoveryURLs).getD c.TrustDiscoveryURLs
      ∧ (Config.UnmarshalTOML c (Except.ok d)).1.BscDiscoveryURLs = (d.BscDiscoveryURLs).getD c.BscDiscoveryURLs
      ∧ (Config.UnmarshalTOML c (Except.ok d)).1.NoPruning = (d.NoPruning).getD c.NoPruning
      ∧ (Config.UnmarshalTOML c (Except.ok d)).1.NoPrefetch = (d.NoPrefetch).getD c.NoPrefetch
      ∧ (Config.UnmarshalTOML c (Except.ok d)).1.DirectBroadcast = (d.DirectBroadcast).getD c.DirectBroadcast
      ∧ (Config.UnmarshalTOML c (Except.ok d)).1.DisableSnapProtocol = (d.DisableSnapProtocol).getD c.DisableSnapProtocol
      ∧ (Config.UnmarshalTOML c (Except.ok d)).1.EnableTrustProtocol = (d.EnableTrustProtocol).getD c.EnableTrustProtocol
      ∧ (Config.UnmarshalTOML c (Except.ok d)).1.PipeCommit = (d.PipeCommit).getD c.PipeCommit
      ∧ (Config.UnmarshalTOML c (Except.ok d)).1.RangeLimit = (d.RangeLimit).getD c.RangeLimit
      ∧ (Config.UnmarshalTOML c (Except.ok d)).1.TxLookupLimit = (d.TxLookupLimit).getD c.TxLookupLimit
      ∧ (Config.UnmarshalTOML c (Except.ok d)).1.TransactionHistory = (d.TransactionHistory).getD c.TransactionHistory
      ∧ (Config.UnmarshalTOML c (Except.ok d)).1.StateHistory = (d.StateHistory).getD c.StateHistory
      ∧ (Config.UnmarshalTOML c (Except.ok d)).1.StateScheme = (d.StateScheme).getD c.StateScheme
      ∧ (Config.UnmarshalTOML c (Except.ok d)).1.PathSyncFlush = (d.PathSyncFlush).getD c.PathSyncFlush
      ∧ (Config.UnmarshalTOML c (Except.ok d)).1.JournalFileEnabled = (d.JournalFileEnabled).getD c.JournalFileEnabled
      ∧ (Config.UnmarshalTOML c (Except.ok d)).1.RequiredBlocks = (d.RequiredBlocks).getD c.RequiredBlocks
      ∧ (Config.UnmarshalTOML c (Except.ok d)).1.LightServ = (d.LightServ).getD c.LightServ
      ∧ (Config.UnmarshalTOML c (Except.ok d)).1.LightIngress = (d.LightIngress).getD c.LightIngress
      ∧ (Config.UnmarshalTOML c (Except.ok d)).1.LightEgress = (d.LightEgress).getD c.LightEgress
      ∧ (Config.UnmarshalTOML c (Except.ok d)).1.LightPeers = (d.LightPeers).getD c.LightPeers
      ∧ (Config.UnmarshalTOML c (Except.ok d)).1.LightNoPrune = (d.LightNoPrune).getD c.LightNoPrune
      ∧ (Config.UnmarshalTOML c (Except.ok d)).1.LightNoSyncServe = (d.LightNoSyncServe).getD c.LightNoSyncServe
      ∧ (Config.UnmarshalTOML c (Except.ok d)).1.SkipBcVersionCheck = (d.SkipBcVersionCheck).getD c.SkipBcVersionCheck
      ∧ (Config.UnmarshalTOML c (Except.ok d)).1.DatabaseHandles = (d.DatabaseHandles).getD c.DatabaseHandles
      ∧ (Config.UnmarshalTOML c (Except.ok d)).1.DatabaseCache = (d.DatabaseCache).getD c.DatabaseCache
      ∧ (Config.UnmarshalTOML c (Except.ok d)).1.DatabaseFreezer = (d.DatabaseFreezer).getD c.DatabaseFreezer
      ∧ (Config.UnmarshalTOML c (Except.ok d)).1.DatabaseDiff = (d.DatabaseDiff).getD c.DatabaseDiff
      ∧ (Config.UnmarshalTOML c (Except.ok d)).1.PersistDiff = (d.PersistDiff).getD c.PersistDiff
      ∧ (Config.UnmarshalTOML c (Except.ok d)).1.DiffBlock = (d.DiffBlock).getD c.DiffBlock
      ∧ (Config.UnmarshalTOML c (Except.ok d)).1.PruneAncientData = (d.PruneAncientData).getD c.PruneAncientData
      ∧ (Config.UnmarshalTOML c (Except.ok d)).1.TrieCleanCache = (d.TrieCleanCache).getD c.TrieCleanCache
      ∧ (Config.UnmarshalTOML c (Except.ok d)).1.TrieDirtyCache = (d.TrieDirtyCache).getD c.TrieDirtyCache
      ∧ (Config.UnmarshalTOML c (Except.ok d)).1.TrieTimeout = (d.TrieTimeout).getD c.TrieTimeout
      ∧ (Config.UnmarshalTOML c (Except.ok d)).1.SnapshotCache = (d.SnapshotCache).getD c.SnapshotCache
      ∧ (Config.UnmarshalTOML c (Except.ok d)).1.TriesInMemory = (d.TriesInMemory).getD c.TriesInMemory
      ∧ (Config.UnmarshalTOML c (Except.ok d)).1.TriesVerifyMode = (d.TriesVerifyMode).getD c.TriesVerifyMode
      ∧ (Config.UnmarshalTOML c (Except.ok d)).1.Preimages = (d.Preimages).getD c.Preimages
      ∧ (Config.UnmarshalTOML c (Except.ok d)).1.FilterLogCacheSize = (d.FilterLogCacheSize).getD c.FilterLogCacheSize
      ∧ (Config.UnmarshalTOML c (Except.ok d)).1.Miner = (d.Miner).getD c.Miner
      ∧ (Config.UnmarshalTOML c (Except.ok d)).1.TxPool = (d.TxPool).getD c.TxPool
      ∧ (Config.UnmarshalTOML c (Except.ok d)).1.BlobPool = (d.BlobPool).getD c.BlobPool
      ∧ (Config.UnmarshalTOML c (Except.ok d)).1.GPO = (d.GPO).getD c.GPO
      ∧ (Config.UnmarshalTOML c (Except.ok d)).1.EnablePreimageRecording = (d.EnablePreimageRecording).getD c.EnablePreimageRecording
      ∧ (Config.UnmarshalTOML c (Except.ok d)).1.DocRoot = (d.DocRoot).getD c.DocRoot
      ∧ (Config.UnmarshalTOML c (Except.ok d)).1.RPCGasCap = (d.RPCGasCap).getD c.RPCGasCap
      ∧ (Config.UnmarshalTOML c (Except.ok d)).1.RPCEVMTimeout = (d.RPCEVMTimeout).getD c.RPCEVMTimeout
      ∧ (Config.UnmarshalTOML c (Except.ok d)).1.RPCTxFeeCap = (d.RPCTxFeeCap).getD c.RPCTxFeeCap
      ∧ (Config.UnmarshalTOML c (Except.ok d)).1.OverrideCancun =
          (if (d.OverrideCancun).isSome then d.OverrideCancun else c.OverrideCancun)
      ∧ (Config.UnmarshalTOML c (Except.ok d)).1.OverrideVerkle =
          (if (d.OverrideVerkle).isSome then d.OverrideVerkle else c.OverrideVerkle)
      ∧ (Config.UnmarshalTOML c (Except.ok d)).1.BlobExtraReserve = (d.BlobExtraReserve).getD c.BlobExtraReserve := by
  refine ⟨fun c e => rfl, fun c d => ?_⟩
  simp only [Config.UnmarshalTOML]
  refine ⟨trivial, ?_, ?_, ?_, ?_, ?_, ?_, ?_, ?_, ?_, ?_, ?_, ?_, ?_, ?_, ?_, ?_, ?_, ?_, ?_, ?_, ?_, ?_, ?_, ?_, ?_, ?_, ?_, ?_, ?_, ?_, ?_, ?_, ?_, ?_, ?_, ?_, ?_, ?_, ?_, ?_, ?_, ?_, ?_, ?_, ?_, ?_, ?_, ?_, ?_, ?_, ?_, ?_, ?_, ?_, ?_, ?_⟩
  · cases d.Genesis <;> rfl
  · cases d.NetworkId <;> rfl
  · cases d.SyncMode <;> rfl
  · cases d.DisablePeerTxBroadcast <;> rfl
  · cases d.EthDiscoveryURLs <;> rfl
  · cases d.SnapDiscoveryURLs <;> rfl
  · cases d.TrustDiscoveryURLs <;> rfl
  · cases d.BscDiscoveryURLs <;> rfl
  · cases d.NoPruning <;> rfl
  · cases d.NoPrefetch <;> rfl
  · cases d.DirectBroadcast <;> rfl
  · cases d.DisableSnapProtocol <;> rfl
  · cases d.EnableTrustProtocol <;> rfl
  · cases d.PipeCommit <;> rfl
  · cases d.RangeLimit <;> rfl
  · cases d.TxLookupLimit <;> rfl
  · cases d.TransactionHistory <;> rfl
  · cases d.StateHistory <;> rfl
  · cases d.StateScheme <;> rfl
  · cases d.PathSyncFlush <;> rfl
  · cases d.JournalFileEnabled <;> rfl
  · cases d.RequiredBlocks <;> rfl
  · cases d.LightServ <;> rfl
  · cases d.LightIngress <;> rfl
  · cases d.LightEgress <;> rfl
  · cases d.LightPeers <;> rfl
  · cases d.LightNoPrune <;> rfl
  · cases d.LightNoSyncServe <;> rfl
  · cases d.SkipBcVersionCheck <;> rfl
  · cases d.DatabaseHandles <;> rfl
  · cases d.DatabaseCache <;> rfl
  · cases d.DatabaseFreezer <;> rfl
  · cases d.DatabaseDiff <;> rfl
  · cases d.PersistDiff <;> rfl
  · cases d.DiffBlock <;> rfl
  · cases d.PruneAncientData <;> rfl
  · cases d.TrieCleanCache <;> rfl
  · cases d.TrieDirtyCache <;> rfl
  · cases d.TrieTimeout <;> rfl
  · cases d.SnapshotCache <;> rfl
  · cases d.TriesInMemory <;> rfl
  · cases d.TriesVerifyMode <;> rfl
  · cases d.Preimages <;> rfl
  · cases d.FilterLogCacheSize <;> rfl
  · cases d.Miner <;> rfl
  · cases d.TxPool <;> rfl
  · cases d.BlobPool <;> rfl
  · cases d.GPO <;> rfl
  · cases d.EnablePreimageRecording <;> rfl
  · cases d.DocRoot <;> rfl
  · cases d.RPCGasCap <;> rfl
  · cases d.RPCEVMTimeout <;> rfl
  · cases d.RPCTxFeeCap <;> rfl
  · cases d.OverrideCancun <;> rfl
  · cases d.OverrideVerkle <;> rfl
  · cases d.BlobExtraReserve <;> rfl

end BscCfg
